import Mathlib

/-!
Verification development for the ease-peasy annotation utility.

The source (a single TypeScript file) defines a class `Annotator` that
accumulates a documentation label string and applies it to classes,
functions, methods and property accessors via `decorate`.  This file is a
shallow embedding of that source: each TypeScript method is translated to a
Lean definition, machine-level JavaScript behaviour (typeof dispatch,
truthiness, property descriptors, reference identity of freshly allocated
functions) is made explicit, and the spec claims are settled as theorems.
-/

set_option autoImplicit false

/-- A JavaScript runtime value, at the granularity the source inspects:
`typeof`, truthiness, and the `constructor` / `name` members used by
`Annotator.getType`.  An object carries the `name` of its constructor
function when it has one (`obj none` models `Object.create(null)`);
numbers are modelled as integers since the source never does arithmetic. -/
inductive JSVal where
  | undef
  | null
  | bool (b : Bool)
  | num (n : Int)
  | str (s : String)
  | obj (ctorName : Option String)
  | func (name : String)
  deriving Repr, DecidableEq

/-- JavaScript `typeof`. -/
def typeOfJS : JSVal → String
  | JSVal.undef => "undefined"
  | JSVal.null => "object"
  | JSVal.bool _ => "boolean"
  | JSVal.num _ => "number"
  | JSVal.str _ => "string"
  | JSVal.obj _ => "object"
  | JSVal.func _ => "function"

/-- JavaScript ToBoolean (truthiness). -/
def truthy : JSVal → Bool
  | JSVal.undef => false
  | JSVal.null => false
  | JSVal.bool b => b
  | JSVal.num n => n != 0
  | JSVal.str s => s != ""
  | JSVal.obj _ => true
  | JSVal.func _ => true

/-- Member access `v.constructor`.  Throws a TypeError (modelled as
`Except.error`) on `undefined` and `null`; primitives box to their wrapper
constructors; an object yields its constructor function when it has one. -/
def ctorOfJS : JSVal → Except String JSVal
  | JSVal.undef => Except.error "TypeError: cannot read constructor of undefined"
  | JSVal.null => Except.error "TypeError: cannot read constructor of null"
  | JSVal.bool _ => Except.ok (JSVal.func "Boolean")
  | JSVal.num _ => Except.ok (JSVal.func "Number")
  | JSVal.str _ => Except.ok (JSVal.func "String")
  | JSVal.obj none => Except.ok JSVal.undef
  | JSVal.obj (some c) => Except.ok (JSVal.func c)
  | JSVal.func _ => Except.ok (JSVal.func "Function")

/-- The `name` of a function value (only read behind a typeof-function
guard in the source). -/
def funcNameJS : JSVal → String
  | JSVal.func n => n
  | _ => ""

/-- The recognized configuration options (source lines 3-8).  An absent
option is JavaScript `undefined`: `none` for the string and tag options,
`JSVal.undef` for `preserveTypes` (which the source inspects as an
arbitrary runtime value). -/
structure AnnotatorOptions where
  message : Option String := none
  description : Option String := none
  tags : Option (List (String × String)) := none
  preserveTypes : JSVal := JSVal.undef

/-- Truthiness of an optional string option, as tested by `if (message)`:
false when absent and false for the empty string. -/
def strOptTruthy (o : Option String) : Bool :=
  o.getD "" != ""

/-- The annotation builder (source lines 14-19): a mutable label string and
the options captured at construction. -/
structure Annotator where
  label : String
  options : AnnotatorOptions := {}

/-- Static factory `Annotator.forClass` (source lines 21-23). -/
def Annotator.forClass (className : String) (options : AnnotatorOptions) : Annotator :=
  { label := "Class: " ++ className, options := options }

/-- Static factory `Annotator.forMethod` (source lines 25-27). -/
def Annotator.forMethod (methodName : String) (options : AnnotatorOptions) : Annotator :=
  { label := "Method: " ++ methodName, options := options }

/-- Static factory `Annotator.forFunction` (source lines 29-31). -/
def Annotator.forFunction (options : AnnotatorOptions) : Annotator :=
  { label := "Function", options := options }

/-- Static factory `Annotator.forProperty` (source lines 33-35). -/
def Annotator.forProperty (propertyName : String) (options : AnnotatorOptions) : Annotator :=
  { label := "Property: " ++ propertyName, options := options }

/-- Mutator `withDescription` (source lines 37-40): appends a paragraph to
the label and returns the (updated) instance. -/
def Annotator.withDescription (a : Annotator) (description : String) : Annotator :=
  { a with label := a.label ++ "\n\n" ++ description }

/-- Mutator `withTag` (source lines 42-45). -/
def Annotator.withTag (a : Annotator) (tagName : String) (tagValue : String) : Annotator :=
  { a with label := a.label ++ "\n\n@" ++ tagName ++ " " ++ tagValue }

/-- Private method `getType` (source lines 104-123), reading only
`this.options.preserveTypes`.  The table lookup `types[typeof v]` with the
`|| "unknown"` fallback, then the guarded constructor-name read.  The
`Except`-free total version: the constructor access is only performed on
truthy values, where it cannot throw; the error arm of the corresponding
exception-aware version `Annotator.getTypeE` is proved unreachable below. -/
def Annotator.getType (options : AnnotatorOptions) : String :=
  let tbl : String → Option String := fun t =>
    if t == "number" then some "Number"
    else if t == "string" then some "String"
    else if t == "boolean" then some "Boolean"
    else none
  let type := (tbl (typeOfJS options.preserveTypes)).getD "unknown"
  if type == "unknown" then
    if truthy options.preserveTypes then
      match ctorOfJS options.preserveTypes with
      | Except.ok c =>
          if truthy c then
            if typeOfJS c == "function" then funcNameJS c else type
          else type
      | Except.error _ => type
    else type
  else type

/-- Exception-aware rendering of `getType` (source lines 104-123): the
member access `this.options.preserveTypes.constructor` can throw a
TypeError on nullish values, so it is performed in `Except`. -/
def Annotator.getTypeE (options : AnnotatorOptions) : Except String String :=
  let tbl : String → Option String := fun t =>
    if t == "number" then some "Number"
    else if t == "string" then some "String"
    else if t == "boolean" then some "Boolean"
    else none
  let type := (tbl (typeOfJS options.preserveTypes)).getD "unknown"
  if type == "unknown" then
    if truthy options.preserveTypes then
      match ctorOfJS options.preserveTypes with
      | Except.ok c =>
          if truthy c then
            if typeOfJS c == "function" then Except.ok (funcNameJS c) else Except.ok type
          else Except.ok type
      | Except.error e => Except.error e
    else Except.ok type
  else Except.ok type

/-- Mutator `withPreserveTypes` (source lines 47-50). -/
def Annotator.withPreserveTypes (a : Annotator) : Annotator :=
  { a with label := a.label ++ "\n\n@type " ++ Annotator.getType a.options }

/-- Exception-aware `withPreserveTypes`. -/
def Annotator.withPreserveTypesE (a : Annotator) : Except String Annotator :=
  match Annotator.getTypeE a.options with
  | Except.ok t => Except.ok { a with label := a.label ++ "\n\n@type " ++ t }
  | Except.error e => Except.error e

/-- Private method `formatTags` (source lines 125-133), reading only
`this.options.tags`: absent tags render as the empty string, otherwise
each entry renders as an at-name-value line joined by single newlines
(`Object.entries` preserves insertion order, modelled by the list order). -/
def Annotator.formatTags (options : AnnotatorOptions) : String :=
  match options.tags with
  | none => ""
  | some ts => String.intercalate "\n" (ts.map fun p => "@" ++ p.1 ++ " " ++ p.2)

/-- `toString` (source lines 135-155): label, parenthesised message when
truthy, description paragraph when truthy, then unconditionally a blank
line plus the tag block, then the type line when `preserveTypes` is
truthy. -/
def Annotator.toString (a : Annotator) : String :=
  let l1 :=
    if strOptTruthy a.options.message then
      a.label ++ " (" ++ a.options.message.getD "" ++ ")"
    else a.label
  let l2 :=
    if strOptTruthy a.options.description then
      l1 ++ "\n\n" ++ a.options.description.getD ""
    else l1
  let l3 := l2 ++ "\n\n" ++ Annotator.formatTags a.options
  if truthy a.options.preserveTypes then
    l3 ++ "\n\n@type " ++ Annotator.getType a.options
  else l3

/-- Exception-aware `toString`: the only member of its body that could
throw is the `getType` call, performed only when `preserveTypes` is
truthy. -/
def Annotator.toStringE (a : Annotator) : Except String String :=
  let l1 :=
    if strOptTruthy a.options.message then
      a.label ++ " (" ++ a.options.message.getD "" ++ ")"
    else a.label
  let l2 :=
    if strOptTruthy a.options.description then
      l1 ++ "\n\n" ++ a.options.description.getD ""
    else l1
  let l3 := l2 ++ "\n\n" ++ Annotator.formatTags a.options
  if truthy a.options.preserveTypes then
    match Annotator.getTypeE a.options with
    | Except.ok t => Except.ok (l3 ++ "\n\n@type " ++ t)
    | Except.error e => Except.error e
  else Except.ok l3

/-- `toString` in state-passing form: the source method only reads
`this.label` and `this.options` into locals and never assigns to `this`,
so its translation returns the rendered string together with the
(unchanged) receiver state. -/
def Annotator.toStringM (a : Annotator) : String × Annotator :=
  (Annotator.toString a, a)

/-- A JavaScript function value as `decorate` handles it: `id` is the
reference identity (a fresh function literal always allocates a fresh
reference), `body` is its call behaviour on the receiver's data fields and
the argument list, and `doc` is its writable documentation side field. -/
structure MFun where
  id : Nat
  body : List (String × JSVal) → List JSVal → JSVal
  doc : Option String := none

/-- An own-property descriptor, at the granularity `decorate` inspects and
produces.  `data` is a plain data property; `dataFn` is a data property
whose value is callable; `annotAccessor key` is the getter/setter pair
that `decorate` installs for `key` (shadow read, shadow-plus-doc write,
source lines 88-98); `annotMethod orig` is the wrapping function that
`decorate` places in a method descriptor around `orig` (source lines
81-84).  The two generated closures capture a reference to the annotator
`self`, so their run-time semantics below take the annotator state current
at invocation time as a parameter. -/
inductive Descr where
  | data (v : JSVal)
  | dataFn (f : MFun)
  | annotAccessor (key : String)
  | annotMethod (orig : MFun)

/-- A JavaScript object: its own properties, in insertion order.  The
documentation field is the data property at the ordinary key
double-underscore-doc-double-underscore; shadow fields are data
properties at underscore-prefixed keys. -/
structure JSObj where
  props : List (String × Descr)

/-- `Object.getOwnPropertyDescriptor`: first binding for the key. -/
def lookupProp (k : String) : List (String × Descr) → Option Descr
  | [] => none
  | (k0, d) :: rest => if k0 = k then some d else lookupProp k rest

/-- Write a property binding: replace an existing binding in place,
otherwise append (JavaScript property creation order). -/
def setPropList (ps : List (String × Descr)) (k : String) (d : Descr) : List (String × Descr) :=
  match ps with
  | [] => [(k, d)]
  | (k0, d0) :: rest => if k0 = k then (k0, d) :: rest else (k0, d0) :: setPropList rest k d

/-- `Object.defineProperty target key descriptor`. -/
def defineProperty (o : JSObj) (k : String) (d : Descr) : JSObj :=
  { props := setPropList o.props k d }

/-- The data-field view of an object, passed to method bodies as their
receiver. -/
def dataFields (o : JSObj) : List (String × JSVal) :=
  o.props.filterMap fun p =>
    match p.2 with
    | Descr.data v => some (p.1, v)
    | _ => none

/-- Property read `o[k]`.  A data property yields its value; the
`decorate`-generated accessor's getter returns the shadow field
(source lines 89-91); reading a missing property yields `undefined`.
Function-valued properties are invoked through `callMethod`, not read as
first-class values here. -/
def getProp (o : JSObj) (k : String) : JSVal :=
  match lookupProp k o.props with
  | some (Descr.data v) => v
  | some (Descr.annotAccessor key) =>
      match lookupProp ("_" ++ key) o.props with
      | some (Descr.data v) => v
      | _ => JSVal.undef
  | _ => JSVal.undef

/-- Property assignment `o[k] = v`.  Hitting the `decorate`-generated
accessor runs its setter: write the shadow field, then stamp the
documentation field with the label of the captured annotator as it is at
assignment time (source lines 92-95).  Any other binding is overwritten as
a plain data property. -/
def setProp (selfNow : Annotator) (o : JSObj) (k : String) (v : JSVal) : JSObj :=
  match lookupProp k o.props with
  | some (Descr.annotAccessor key) =>
      { props :=
          setPropList (setPropList o.props ("_" ++ key) (Descr.data v)) "__doc__"
            (Descr.data (JSVal.str selfNow.label)) }
  | _ => { props := setPropList o.props k (Descr.data v) }

/-- Method invocation `o.k(args)`.  A plain method runs its body on the
receiver's data fields; the `decorate`-generated wrapper first stamps the
documentation field with the label of the captured annotator as it is at
call time, then delegates to the original method on the updated receiver
(source lines 81-84).  Calling a non-function yields `undefined` here (the
claims never exercise that case). -/
def callMethod (selfNow : Annotator) (o : JSObj) (k : String) (args : List JSVal) :
    JSObj × JSVal :=
  match lookupProp k o.props with
  | some (Descr.dataFn f) => (o, f.body (dataFields o) args)
  | some (Descr.annotMethod orig) =>
      let o2 : JSObj :=
        { props := setPropList o.props "__doc__" (Descr.data (JSVal.str selfNow.label)) }
      (o2, orig.body (dataFields o2) args)
  | _ => (o, JSVal.undef)

/-- A `decorate` target: any callable value (plain function or class
constructor, `typeof` gives function for both) with its own properties,
or a non-callable object. -/
inductive Target where
  | fn (f : MFun) (props : JSObj)
  | ob (o : JSObj)

/-- The result of `decorate`: a freshly created wrapping function
(function branch, source lines 62-68); the target itself returned stamped
(whole-object branch, source lines 72-74); the modified method descriptor
(source lines 78-86); or `undefined` after redefining the property on the
target in place (source lines 88-99, the post-state of the target is
carried). -/
inductive DecResult where
  | retFn (w : MFun)
  | retSame (t : Target)
  | retDescr (d : Descr)
  | retVoid (t : Target)

/-- `decorate` (source lines 52-102).  Dispatch: a callable target with no
key takes the function branch and allocates a fresh wrapper (`freshId` is
the identity of that allocation, distinct from every live id); a
non-callable target with no key is stamped and returned; with a key, a
callable existing descriptor value is wrapped into a method descriptor
(re-decorating an already wrapped method is collapsed to a single wrapping
layer here, a case no claim exercises), anything else installs the
accessor pair. -/
def Annotator.decorate (a : Annotator) (t : Target) (key : Option String) (freshId : Nat) :
    DecResult :=
  match t, key with
  | Target.fn f _, none =>
      DecResult.retFn
        { id := freshId, body := fun tf args => f.body tf args, doc := some a.label }
  | Target.ob o, none =>
      DecResult.retSame (Target.ob (setProp a o "__doc__" (JSVal.str a.label)))
  | Target.fn f p, some k =>
      match lookupProp k p.props with
      | some (Descr.dataFn orig) => DecResult.retDescr (Descr.annotMethod orig)
      | some (Descr.annotMethod orig) => DecResult.retDescr (Descr.annotMethod orig)
      | _ => DecResult.retVoid (Target.fn f (defineProperty p k (Descr.annotAccessor k)))
  | Target.ob o, some k =>
      match lookupProp k o.props with
      | some (Descr.dataFn orig) => DecResult.retDescr (Descr.annotMethod orig)
      | some (Descr.annotMethod orig) => DecResult.retDescr (Descr.annotMethod orig)
      | _ => DecResult.retVoid (Target.ob (defineProperty o k (Descr.annotAccessor k)))

/-- Whether a `decorate` result is the very constructor that was passed in
(same reference): either the target function returned directly, or a
returned function with the same identity. -/
def returnsSameCtor (c : MFun) : DecResult → Bool
  | DecResult.retFn w => w.id == c.id
  | DecResult.retSame (Target.fn f _) => f.id == c.id
  | _ => false

/-- Whether an existing own descriptor has a callable value (the test
`descriptor and typeof descriptor.value is function` on source line 78). -/
def callableValueDescr : Option Descr → Bool
  | some (Descr.dataFn _) => true
  | some (Descr.annotMethod _) => true
  | _ => false

/-- One chained mutator call on an annotator. -/
inductive Mutation where
  | desc (s : String)
  | tag (n v : String)
  | ptypes

/-- Apply one mutator call. -/
def applyMut (a : Annotator) : Mutation → Annotator
  | Mutation.desc s => Annotator.withDescription a s
  | Mutation.tag n v => Annotator.withTag a n v
  | Mutation.ptypes => Annotator.withPreserveTypes a

/-- Apply a sequence of mutator calls in order. -/
def runMuts (a : Annotator) : List Mutation → Annotator
  | [] => a
  | m :: ms => runMuts (applyMut a m) ms

/-- The documentation field of the function returned by `decorate`, when
the function branch was taken. -/
def DecResult.wrapDoc : DecResult → Option String
  | DecResult.retFn w => w.doc
  | _ => none

/-- The reference identity of the function returned by `decorate`, when
the function branch was taken. -/
def DecResult.wrapId : DecResult → Option Nat
  | DecResult.retFn w => some w.id
  | _ => none

/-- Invoke the function returned by `decorate` on a receiver context and
an argument list (the wrapper forwards both to the original). -/
def DecResult.wrapCall : DecResult → List (String × JSVal) → List JSVal → JSVal
  | DecResult.retFn w, tf, args => w.body tf args
  | _, _, _ => JSVal.undef

/-- A concrete constructor function (reference id 0). -/
def ctorSample : MFun :=
  { id := 0, body := fun _ _ => JSVal.obj (some "A") }

/-- A concrete plain function (reference id 0) returning its first
argument. -/
def fnSample : MFun :=
  { id := 0, body := fun _ args => args.headD JSVal.undef }

/-- An object with no own properties. -/
def emptyObj : JSObj := { props := [] }

/-- A concrete method (reference id 5) returning its first argument. -/
def methSample : MFun :=
  { id := 5, body := fun _ args => args.headD JSVal.undef }

/-- An object with a single method at key "prop". -/
def methObj : JSObj := { props := [("prop", Descr.dataFn methSample)] }

/-- A concrete method at key "m" used for the snapshot-versus-live
witness. -/
def methSample2 : MFun :=
  { id := 9, body := fun _ _ => JSVal.num 3 }

/-- An object with a single method at key "m". -/
def methObj2 : JSObj := { props := [("m", Descr.dataFn methSample2)] }

/-- Writing a key then reading it back yields the written descriptor. -/
theorem lookup_set_eq (ps : List (String × Descr)) (k : String) (d : Descr) :
    lookupProp k (setPropList ps k d) = some d := by
  induction ps with
  | nil => simp [setPropList, lookupProp]
  | cons hd tl ih =>
      obtain ⟨k0, d0⟩ := hd
      by_cases h : k0 = k
      · simp [setPropList, h, lookupProp]
      · simp [setPropList, h, lookupProp, ih]

/-- Writing one key leaves lookups of any other key unchanged. -/
theorem lookup_set_ne (ps : List (String × Descr)) (k k0 : String) (d : Descr)
    (h : k0 ≠ k) : lookupProp k0 (setPropList ps k d) = lookupProp k0 ps := by
  induction ps with
  | nil =>
      simp only [setPropList, lookupProp]
      rw [if_neg (fun hk => h hk.symm)]
  | cons hd tl ih =>
      obtain ⟨k1, d1⟩ := hd
      by_cases h1 : k1 = k
      · simp only [setPropList, if_pos h1, lookupProp]
        rw [if_neg (fun hk : k1 = k0 => h (hk ▸ h1)),
          if_neg (fun hk : k1 = k0 => h (hk ▸ h1))]
      · simp only [setPropList, if_neg h1, lookupProp]
        by_cases h0 : k1 = k0
        · rw [if_pos h0, if_pos h0]
        · rw [if_neg h0, if_neg h0, ih]

/-- A key never equals its underscore-prefixed shadow key. -/
theorem shadow_ne (k : String) : k ≠ "_" ++ k := by
  intro h
  have hl := congrArg String.length h
  rw [String.length_append] at hl
  have h1 : ("_" : String).length = 1 := rfl
  omega

/-- Assignment through the decorate-generated accessor: write the shadow
field, then stamp the documentation field with the current label. -/
theorem setProp_accessor (selfNow : Annotator) (o : JSObj) (k key : String) (v : JSVal)
    (h : lookupProp k o.props = some (Descr.annotAccessor key)) :
    setProp selfNow o k v =
      { props := setPropList (setPropList o.props ("_" ++ key) (Descr.data v)) "__doc__"
          (Descr.data (JSVal.str selfNow.label)) } := by
  unfold setProp
  rw [h]

/-- Assignment ignoring any non-accessor binding overwrites as data. -/
theorem getProp_data (o : JSObj) (k : String) (v : JSVal)
    (h : lookupProp k o.props = some (Descr.data v)) : getProp o k = v := by
  unfold getProp
  rw [h]

/-- Reading through the decorate-generated accessor returns the shadow
field when it is a plain data property. -/
theorem getProp_accessor (o : JSObj) (k key : String) (w : JSVal)
    (h1 : lookupProp k o.props = some (Descr.annotAccessor key))
    (h2 : lookupProp ("_" ++ key) o.props = some (Descr.data w)) : getProp o k = w := by
  simp [getProp, h1, h2]

/-- Invoking the decorate-generated method wrapper stamps the
documentation field with the current label of the captured annotator, then
delegates to the original method on the updated receiver. -/
theorem callMethod_wrapped (selfNow : Annotator) (o : JSObj) (k : String) (orig : MFun)
    (args : List JSVal)
    (h : lookupProp k o.props = some (Descr.annotMethod orig)) :
    callMethod selfNow o k args =
      ({ props := setPropList o.props "__doc__" (Descr.data (JSVal.str selfNow.label)) },
        orig.body
          (dataFields
            { props := setPropList o.props "__doc__" (Descr.data (JSVal.str selfNow.label)) })
          args) := by
  unfold callMethod
  rw [h]

/-- With a key and a callable existing descriptor value, `decorate`
returns the method descriptor wrapping the original. -/
theorem decorate_method_descr (a : Annotator) (o : JSObj) (k : String) (orig : MFun)
    (fid : Nat) (h : lookupProp k o.props = some (Descr.dataFn orig)) :
    Annotator.decorate a (Target.ob o) (some k) fid =
      DecResult.retDescr (Descr.annotMethod orig) := by
  simp only [Annotator.decorate]
  rw [h]

/-- With a key and no callable existing descriptor value, `decorate`
installs the accessor pair on the target and returns undefined. -/
theorem decorate_property_descr (a : Annotator) (o : JSObj) (k : String) (fid : Nat)
    (h : callableValueDescr (lookupProp k o.props) = false) :
    Annotator.decorate a (Target.ob o) (some k) fid =
      DecResult.retVoid (Target.ob (defineProperty o k (Descr.annotAccessor k))) := by
  simp only [Annotator.decorate]
  cases hx : lookupProp k o.props with
  | none => rfl
  | some d =>
      cases d with
      | data v => rfl
      | dataFn f => rw [hx] at h; simp [callableValueDescr] at h
      | annotAccessor key => rfl
      | annotMethod g => rw [hx] at h; simp [callableValueDescr] at h

/-- The guarded constructor access in `getType` never actually throws: the
exception-aware rendering always succeeds with the total rendering's
result. -/
theorem getTypeE_ok (opts : AnnotatorOptions) :
    Annotator.getTypeE opts = Except.ok (Annotator.getType opts) := by
  rcases opts with ⟨m, d, t, pv⟩
  cases pv with
  | obj c => cases c <;> rfl
  | undef => rfl
  | null => rfl
  | bool b => rfl
  | num n => rfl
  | str s => rfl
  | func n => rfl

/-- `toString` never throws. -/
theorem toStringE_ok (a : Annotator) :
    Annotator.toStringE a = Except.ok (Annotator.toString a) := by
  unfold Annotator.toStringE Annotator.toString
  by_cases hp : truthy a.options.preserveTypes = true
  · simp [hp, getTypeE_ok]
  · simp [hp]

/-- `withPreserveTypes` never throws. -/
theorem withPreserveTypesE_ok (a : Annotator) :
    Annotator.withPreserveTypesE a = Except.ok (Annotator.withPreserveTypes a) := by
  unfold Annotator.withPreserveTypesE Annotator.withPreserveTypes
  rw [getTypeE_ok]

/-- Every single mutator call strictly lengthens the label (each appends a
suffix beginning with a blank line). -/
theorem applyMut_label_length (a : Annotator) (m : Mutation) :
    a.label.length + 2 ≤ (applyMut a m).label.length := by
  have h2 : ("\n\n" : String).length = 2 := rfl
  have h3 : ("\n\n@" : String).length = 3 := rfl
  have h4 : (" " : String).length = 1 := rfl
  have h5 : ("\n\n@type " : String).length = 8 := rfl
  cases m with
  | desc s =>
      simp only [applyMut, Annotator.withDescription, String.length_append, h2]
      omega
  | tag n v =>
      simp only [applyMut, Annotator.withTag, String.length_append, h3, h4]
      omega
  | ptypes =>
      simp only [applyMut, Annotator.withPreserveTypes, String.length_append, h5]
      omega

/-- Running mutator calls never shortens the label. -/
theorem runMuts_label_length (ms : List Mutation) (a : Annotator) :
    a.label.length ≤ (runMuts a ms).label.length := by
  induction ms generalizing a with
  | nil => exact Nat.le_refl _
  | cons m ms ih =>
      have h1 := applyMut_label_length a m
      have h2 := ih (applyMut a m)
      simp only [runMuts]
      omega

/-- After at least one mutator call the label has changed. -/
theorem runMuts_label_ne (a : Annotator) (ms : List Mutation) (h : ms ≠ []) :
    (runMuts a ms).label ≠ a.label := by
  cases ms with
  | nil => exact absurd rfl h
  | cons m ms =>
      intro heq
      have h1 := applyMut_label_length a m
      have h2 := runMuts_label_length ms (applyMut a m)
      have h3 : (runMuts a (m :: ms)).label.length = a.label.length :=
        congrArg String.length heq
      simp only [runMuts] at h3
      omega

/-- Claim C1, counterexample: for the concrete constructor `ctorSample`
(reference id 0), `decorate` with no property key does NOT return the same
constructor reference: the function branch of `decorate` (source line 59)
intercepts every callable target, including class constructors, and
allocates a fresh wrapping function (here with fresh id 1), so the claim
"returns the same constructor reference C and never creates a new
constructor" is false on the code. -/
theorem C1_counterexample :
    returnsSameCtor ctorSample
      (Annotator.decorate (Annotator.forClass "A" {}) (Target.fn ctorSample emptyObj)
        none 1) = false := rfl

/-- Claim C1 (amended): `decorate` on a class constructor with no property
key returns a NEW function (a fresh reference, never the constructor
itself) that forwards calls to the constructor and carries the current
label as its documentation field; the constructor is not returned and not
mutated.  Only a non-callable target with no key is stamped and returned
as the same reference. -/
theorem C1_decorate_class_amended (a : Annotator) (c : MFun) (p : JSObj) (freshId : Nat)
    (h : freshId ≠ c.id) :
    Annotator.decorate a (Target.fn c p) none freshId =
      DecResult.retFn { id := freshId, body := c.body, doc := some a.label } ∧
    returnsSameCtor c (Annotator.decorate a (Target.fn c p) none freshId) = false ∧
    (∀ o : JSObj, Annotator.decorate a (Target.ob o) none freshId =
      DecResult.retSame (Target.ob (setProp a o "__doc__" (JSVal.str a.label)))) := by
  refine ⟨rfl, ?_, fun o => rfl⟩
  simp only [Annotator.decorate, returnsSameCtor]
  exact beq_eq_false_iff_ne.mpr h

/-- Witness for the amended claim C1 at a concrete input. -/
theorem C1_witness :
    (1 ≠ ctorSample.id) ∧
    returnsSameCtor ctorSample
      (Annotator.decorate (Annotator.forClass "B" {}) (Target.fn ctorSample emptyObj)
        none 1) = false :=
  ⟨by decide,
    (C1_decorate_class_amended (Annotator.forClass "B" {}) ctorSample emptyObj 1
      (by decide)).2.1⟩

/-- Claim C2: `decorate` on a plain function with no property key returns
a new function (fresh reference, distinct from the original) whose
documentation field equals the annotator's current label and whose
invocation on any receiver context and any argument list produces exactly
what the original produces there; the original function appears nowhere in
the result except as the delegation target, hence is left unmodified. -/
theorem C2_decorate_function (a : Annotator) (f : MFun) (p : JSObj) (freshId : Nat)
    (h : freshId ≠ f.id) :
    Annotator.decorate a (Target.fn f p) none freshId =
      DecResult.retFn { id := freshId, body := f.body, doc := some a.label } ∧
    DecResult.wrapId (Annotator.decorate a (Target.fn f p) none freshId) = some freshId ∧
    freshId ≠ f.id ∧
    DecResult.wrapDoc (Annotator.decorate a (Target.fn f p) none freshId) = some a.label ∧
    (∀ tf args,
      DecResult.wrapCall (Annotator.decorate a (Target.fn f p) none freshId) tf args =
        f.body tf args) :=
  ⟨rfl, rfl, h, rfl, fun _ _ => rfl⟩

/-- Witness for claim C2 at a concrete input: decorating `fnSample` (id 0)
with fresh id 1 and invoking the wrapper on the argument 42. -/
theorem C2_witness :
    (1 ≠ fnSample.id) ∧
    DecResult.wrapCall
        (Annotator.decorate (Annotator.forFunction {}) (Target.fn fnSample emptyObj) none 1)
        [] [JSVal.num 42] = fnSample.body [] [JSVal.num 42] :=
  ⟨by decide,
    (C2_decorate_function (Annotator.forFunction {}) fnSample emptyObj 1 (by decide)).2.2.2.2
      [] [JSVal.num 42]⟩

/-- Claim C3: with a target object owning a callable descriptor at the
key, `decorate` returns the method descriptor whose value is the wrapper;
once that descriptor is redefined onto the object, every invocation of the
method first stamps the receiver's documentation field with the label and
then returns what the original method returns for those arguments on that
receiver. -/
theorem C3_decorate_method (a : Annotator) (o : JSObj) (k : String) (orig : MFun)
    (args : List JSVal) (fid : Nat)
    (h : lookupProp k o.props = some (Descr.dataFn orig)) :
    Annotator.decorate a (Target.ob o) (some k) fid =
      DecResult.retDescr (Descr.annotMethod orig) ∧
    getProp (callMethod a (defineProperty o k (Descr.annotMethod orig)) k args).1 "__doc__"
      = JSVal.str a.label ∧
    (callMethod a (defineProperty o k (Descr.annotMethod orig)) k args).2 =
      orig.body
        (dataFields (callMethod a (defineProperty o k (Descr.annotMethod orig)) k args).1)
        args := by
  have e1 : lookupProp k (defineProperty o k (Descr.annotMethod orig)).props
      = some (Descr.annotMethod orig) := lookup_set_eq _ _ _
  have hc := callMethod_wrapped a (defineProperty o k (Descr.annotMethod orig)) k orig args e1
  refine ⟨decorate_method_descr a o k orig fid h, ?_, ?_⟩
  · rw [hc]
    exact getProp_data _ _ _ (lookup_set_eq _ _ _)
  · rw [hc]

/-- One assignment through the decorate-generated accessor, for a key that
does not collide with the documentation field: the shadow field receives
the assigned value, the documentation field receives the current label,
reading the property returns the assigned value, and the accessor itself
stays installed (so every later assignment behaves the same way). -/
theorem accessor_assign (a : Annotator) (o : JSObj) (k : String) (v : JSVal)
    (hk : k ≠ "__doc__") (hs : "_" ++ k ≠ "__doc__")
    (hacc : lookupProp k o.props = some (Descr.annotAccessor k)) :
    getProp (setProp a o k v) ("_" ++ k) = v ∧
    getProp (setProp a o k v) "__doc__" = JSVal.str a.label ∧
    getProp (setProp a o k v) k = v ∧
    lookupProp k (setProp a o k v).props = some (Descr.annotAccessor k) := by
  have hs1 := setProp_accessor a o k k v hacc
  have l_sh : lookupProp ("_" ++ k)
      (setPropList (setPropList o.props ("_" ++ k) (Descr.data v)) "__doc__"
        (Descr.data (JSVal.str a.label))) = some (Descr.data v) := by
    rw [lookup_set_ne _ _ _ _ hs]
    exact lookup_set_eq _ _ _
  have l_doc : lookupProp "__doc__"
      (setPropList (setPropList o.props ("_" ++ k) (Descr.data v)) "__doc__"
        (Descr.data (JSVal.str a.label))) = some (Descr.data (JSVal.str a.label)) :=
    lookup_set_eq _ _ _
  have l_k : lookupProp k
      (setPropList (setPropList o.props ("_" ++ k) (Descr.data v)) "__doc__"
        (Descr.data (JSVal.str a.label))) = some (Descr.annotAccessor k) := by
    rw [lookup_set_ne _ _ _ _ hk, lookup_set_ne _ _ _ _ (shadow_ne k)]
    exact hacc
  refine ⟨?_, ?_, ?_, ?_⟩
  · rw [hs1]
    exact getProp_data _ _ _ l_sh
  · rw [hs1]
    exact getProp_data _ _ _ l_doc
  · rw [hs1]
    exact getProp_accessor _ _ _ _ l_k l_sh
  · rw [hs1]
    exact l_k

/-- Claim C4: with a target object owning no callable descriptor at the
key (and the key not colliding with the documentation field, as the
claim's key "prop" does not), `decorate` installs the accessor pair; then
every assignment to the property writes the shadow field and stamps the
documentation field with the label (the second assignment behaves exactly
like the first), and reading the property returns the shadow field's
current value. -/
theorem C4_decorate_property (a : Annotator) (o : JSObj) (k : String) (x y : JSVal)
    (fid : Nat)
    (h : callableValueDescr (lookupProp k o.props) = false)
    (hk : k ≠ "__doc__") (hs : "_" ++ k ≠ "__doc__") :
    Annotator.decorate a (Target.ob o) (some k) fid =
      DecResult.retVoid (Target.ob (defineProperty o k (Descr.annotAccessor k))) ∧
    getProp (setProp a (defineProperty o k (Descr.annotAccessor k)) k x) ("_" ++ k) = x ∧
    getProp (setProp a (defineProperty o k (Descr.annotAccessor k)) k x) "__doc__"
      = JSVal.str a.label ∧
    getProp (setProp a (defineProperty o k (Descr.annotAccessor k)) k x) k = x ∧
    getProp (setProp a (setProp a (defineProperty o k (Descr.annotAccessor k)) k x) k y)
      ("_" ++ k) = y ∧
    getProp (setProp a (setProp a (defineProperty o k (Descr.annotAccessor k)) k x) k y)
      "__doc__" = JSVal.str a.label := by
  have hacc1 : lookupProp k (defineProperty o k (Descr.annotAccessor k)).props
      = some (Descr.annotAccessor k) := lookup_set_eq _ _ _
  have A1 := accessor_assign a (defineProperty o k (Descr.annotAccessor k)) k x hk hs hacc1
  have A2 := accessor_assign a
    (setProp a (defineProperty o k (Descr.annotAccessor k)) k x) k y hk hs A1.2.2.2
  exact ⟨decorate_property_descr a o k fid h, A1.1, A1.2.1, A1.2.2.1, A2.1, A2.2.1⟩

/-- Witness for claim C4 at the claim's concrete shapes: an empty object,
key "prop", assigned value the string "x". -/
theorem C4_witness :
    callableValueDescr (lookupProp "prop" emptyObj.props) = false ∧
    ("prop" ≠ "__doc__") ∧
    ("_" ++ "prop" ≠ "__doc__") ∧
    getProp
        (setProp (Annotator.forProperty "prop" {})
          (defineProperty emptyObj "prop" (Descr.annotAccessor "prop")) "prop"
          (JSVal.str "x"))
        ("_" ++ "prop") = JSVal.str "x" ∧
    getProp
        (setProp (Annotator.forProperty "prop" {})
          (defineProperty emptyObj "prop" (Descr.annotAccessor "prop")) "prop"
          (JSVal.str "x"))
        "__doc__" = JSVal.str (Annotator.forProperty "prop" {}).label :=
  ⟨rfl, by decide, by decide,
    (C4_decorate_property (Annotator.forProperty "prop" {}) emptyObj "prop"
      (JSVal.str "x") (JSVal.str "y") 0 rfl (by decide) (by decide)).2.1,
    (C4_decorate_property (Annotator.forProperty "prop" {}) emptyObj "prop"
      (JSVal.str "x") (JSVal.str "y") 0 rfl (by decide) (by decide)).2.2.1⟩

/-- Claim C5: no documented operation throws.  The factories and the label
mutators are total by construction; the single potentially-throwing
member access (reading `constructor` inside `getType`, reachable from
`withPreserveTypes` and `toString`) is guarded by the truthiness test, so
the exception-aware renderings always succeed with the total renderings'
results.  Missing options degrade to empty-string contributions (a fresh
annotator with no options renders as its label plus the empty tag block),
and unresolvable type names degrade to the literal "unknown". -/
theorem C5_never_throws :
    (∀ opts : AnnotatorOptions, Annotator.getTypeE opts = Except.ok (Annotator.getType opts)) ∧
    (∀ a : Annotator, Annotator.toStringE a = Except.ok (Annotator.toString a)) ∧
    (∀ a : Annotator, Annotator.withPreserveTypesE a =
      Except.ok (Annotator.withPreserveTypes a)) ∧
    (∀ l : String, Annotator.toString { label := l, options := {} } = l ++ "\n\n") ∧
    Annotator.getType {} = "unknown" ∧
    Annotator.getType { preserveTypes := JSVal.null } = "unknown" ∧
    Annotator.getType { preserveTypes := JSVal.obj none } = "unknown" := by
  refine ⟨getTypeE_ok, toStringE_ok, withPreserveTypesE_ok, ?_, rfl, rfl, rfl⟩
  intro l
  simp [Annotator.toString, Annotator.formatTags, strOptTruthy, truthy, String.append_empty]

/-- Claim C6: `toString` renders, in order, the label, the parenthesised
message when set, the blank-line-separated description when set, a blank
line plus the tag block (one at-name-value line per tag), and, when
`preserveTypes` is set, a blank-line-separated type line; the end-to-end
example from the spec renders exactly as claimed. -/
theorem C6_toString_rendering :
    (∀ a : Annotator,
      Annotator.toString a =
        a.label ++
          (if strOptTruthy a.options.message then
            " (" ++ a.options.message.getD "" ++ ")"
          else "") ++
          (if strOptTruthy a.options.description then
            "\n\n" ++ a.options.description.getD ""
          else "") ++
          ("\n\n" ++ Annotator.formatTags a.options) ++
          (if truthy a.options.preserveTypes then
            "\n\n@type " ++ Annotator.getType a.options
          else "")) ∧
    Annotator.toString
        (Annotator.forMethod "myMethod"
          { description := some "desc", tags := some [("author", "X")] }) =
      "Method: myMethod\n\ndesc\n\n@author X" := by
  constructor
  · intro a
    unfold Annotator.toString
    by_cases hm : strOptTruthy a.options.message = true <;>
      by_cases hd : strOptTruthy a.options.description = true <;>
        by_cases hp : truthy a.options.preserveTypes = true <;>
          simp [hm, hd, hp, String.append_assoc, String.append_empty] <;>
            rw [show (")\n\n" : String) = ")" ++ "\n\n" from rfl, String.append_assoc]
  · rfl

/-- Claim C7: the type name resolved by `getType` (used by
`withPreserveTypes` and by the type line of `toString`) is "Boolean" for
the boolean true, "String" for every string, "Number" for every number,
the value's runtime constructor name for other values that have a
constructor (for example "Object" for a plain object literal, "Function"
for a function), and "unknown" otherwise (undefined, null, and objects
with no constructor). -/
theorem C7_getType_resolution :
    Annotator.getType { preserveTypes := JSVal.bool true } = "Boolean" ∧
    (∀ s, Annotator.getType { preserveTypes := JSVal.str s } = "String") ∧
    (∀ n, Annotator.getType { preserveTypes := JSVal.num n } = "Number") ∧
    (∀ c, Annotator.getType { preserveTypes := JSVal.obj (some c) } = c) ∧
    Annotator.getType { preserveTypes := JSVal.obj (some "Object") } = "Object" ∧
    (∀ nm, Annotator.getType { preserveTypes := JSVal.func nm } = "Function") ∧
    Annotator.getType { preserveTypes := JSVal.obj none } = "unknown" ∧
    Annotator.getType { preserveTypes := JSVal.null } = "unknown" ∧
    Annotator.getType {} = "unknown" ∧
    (∀ a : Annotator, (Annotator.withPreserveTypes a).label =
      a.label ++ "\n\n@type " ++ Annotator.getType a.options) :=
  ⟨rfl, fun _ => rfl, fun _ => rfl, fun _ => rfl, rfl, fun _ => rfl, rfl, rfl, rfl,
    fun _ => rfl⟩

/-- Claim C8: the label only grows.  Each chained mutator returns the same
instance (same state record: unchanged options) with the label extended by
exactly one appended suffix — the blank-line paragraph, the blank-line tag
line, or the blank-line type line respectively — and each call strictly
lengthens the label, so it is never truncated or reset. -/
theorem C8_mutators_growth (a : Annotator) :
    (∀ t, Annotator.withDescription a t =
      { label := a.label ++ "\n\n" ++ t, options := a.options }) ∧
    (∀ n v, Annotator.withTag a n v =
      { label := a.label ++ "\n\n@" ++ n ++ " " ++ v, options := a.options }) ∧
    Annotator.withPreserveTypes a =
      { label := a.label ++ "\n\n@type " ++ Annotator.getType a.options,
        options := a.options } ∧
    (∀ t, a.label.length < (Annotator.withDescription a t).label.length) ∧
    (∀ n v, a.label.length < (Annotator.withTag a n v).label.length) ∧
    a.label.length < (Annotator.withPreserveTypes a).label.length := by
  refine ⟨fun t => rfl, fun n v => rfl, rfl, ?_, ?_, ?_⟩
  · intro t
    have := applyMut_label_length a (Mutation.desc t)
    simp only [applyMut] at this
    omega
  · intro n v
    have := applyMut_label_length a (Mutation.tag n v)
    simp only [applyMut] at this
    omega
  · have := applyMut_label_length a Mutation.ptypes
    simp only [applyMut] at this
    omega

/-- Claim C9: `toString` is pure and non-mutating: in state-passing form
it returns the receiver unchanged, two consecutive calls render the same
string, and a `decorate` performed after a `toString` call produces
exactly what it would have produced before. -/
theorem C9_toString_pure (a : Annotator) :
    (Annotator.toStringM a).2 = a ∧
    (Annotator.toStringM ((Annotator.toStringM a).2)).1 = (Annotator.toStringM a).1 ∧
    (∀ t k fid, Annotator.decorate ((Annotator.toStringM a).2) t k fid =
      Annotator.decorate a t k fid) :=
  ⟨rfl, rfl, fun _ _ _ => rfl⟩

/-- Claim C10: the function form of `decorate` snapshots the label (the
wrapper's documentation field is the label as of decorate time, a plain
string unaffected by later mutator calls), while the method-form wrapper
and the property-form setter read the captured annotator's label at each
invocation or assignment: after any non-empty sequence of mutator calls
the annotator's label has changed, and an invocation or assignment then
stamps the new label, not the decorate-time one. -/
theorem C10_snapshot_vs_live (a : Annotator) (f : MFun) (p : JSObj) (fid : Nat)
    (o o2 : JSObj) (k k2 : String) (orig : MFun) (args : List JSVal) (v : JSVal)
    (ms : List Mutation)
    (hms : ms ≠ [])
    (hm : lookupProp k o.props = some (Descr.dataFn orig))
    (hp : callableValueDescr (lookupProp k2 o2.props) = false) :
    DecResult.wrapDoc (Annotator.decorate a (Target.fn f p) none fid) = some a.label ∧
    (runMuts a ms).label ≠ a.label ∧
    Annotator.decorate a (Target.ob o) (some k) fid =
      DecResult.retDescr (Descr.annotMethod orig) ∧
    getProp (callMethod (runMuts a ms) (defineProperty o k (Descr.annotMethod orig)) k args).1
      "__doc__" = JSVal.str (runMuts a ms).label ∧
    Annotator.decorate a (Target.ob o2) (some k2) fid =
      DecResult.retVoid (Target.ob (defineProperty o2 k2 (Descr.annotAccessor k2))) ∧
    getProp (setProp (runMuts a ms) (defineProperty o2 k2 (Descr.annotAccessor k2)) k2 v)
      "__doc__" = JSVal.str (runMuts a ms).label := by
  have e1 : lookupProp k (defineProperty o k (Descr.annotMethod orig)).props
      = some (Descr.annotMethod orig) := lookup_set_eq _ _ _
  have hc := callMethod_wrapped (runMuts a ms) (defineProperty o k (Descr.annotMethod orig))
    k orig args e1
  have e2 : lookupProp k2 (defineProperty o2 k2 (Descr.annotAccessor k2)).props
      = some (Descr.annotAccessor k2) := lookup_set_eq _ _ _
  have hset := setProp_accessor (runMuts a ms)
    (defineProperty o2 k2 (Descr.annotAccessor k2)) k2 k2 v e2
  refine ⟨rfl, runMuts_label_ne a ms hms, decorate_method_descr a o k orig fid hm, ?_,
    decorate_property_descr a o2 k2 fid hp, ?_⟩
  · rw [hc]
    exact getProp_data _ _ _ (lookup_set_eq _ _ _)
  · rw [hset]
    exact getProp_data _ _ _ (lookup_set_eq _ _ _)

/-- Witness for claim C10 at a concrete input: one later mutator call
(a description paragraph), a method object at key "m" and an empty object
at key "p". -/
theorem C10_witness :
    ([Mutation.desc "more"] ≠ ([] : List Mutation)) ∧
    lookupProp "m" methObj2.props = some (Descr.dataFn methSample2) ∧
    callableValueDescr (lookupProp "p" emptyObj.props) = false ∧
    DecResult.wrapDoc
        (Annotator.decorate (Annotator.forFunction {}) (Target.fn fnSample emptyObj) none 1)
      = some (Annotator.forFunction {}).label ∧
    (runMuts (Annotator.forFunction {}) [Mutation.desc "more"]).label
      ≠ (Annotator.forFunction {}).label ∧
    getProp
        (callMethod (runMuts (Annotator.forFunction {}) [Mutation.desc "more"])
          (defineProperty methObj2 "m" (Descr.annotMethod methSample2)) "m" []).1
        "__doc__"
      = JSVal.str (runMuts (Annotator.forFunction {}) [Mutation.desc "more"]).label :=
  ⟨List.cons_ne_nil _ _, rfl, rfl,
    (C10_snapshot_vs_live (Annotator.forFunction {}) fnSample emptyObj 1 methObj2 emptyObj
      "m" "p" methSample2 [] JSVal.undef [Mutation.desc "more"] (List.cons_ne_nil _ _)
      rfl rfl).1,
    (C10_snapshot_vs_live (Annotator.forFunction {}) fnSample emptyObj 1 methObj2 emptyObj
      "m" "p" methSample2 [] JSVal.undef [Mutation.desc "more"] (List.cons_ne_nil _ _)
      rfl rfl).2.1,
    (C10_snapshot_vs_live (Annotator.forFunction {}) fnSample emptyObj 1 methObj2 emptyObj
      "m" "p" methSample2 [] JSVal.undef [Mutation.desc "more"] (List.cons_ne_nil _ _)
      rfl rfl).2.2.2.1⟩

/-- Witness for claim C3 at a concrete input: an object with a method at
key "prop", invoked with the argument 7 after redefinition. -/
theorem C3_witness :
    lookupProp "prop" methObj.props = some (Descr.dataFn methSample) ∧
    getProp
        (callMethod (Annotator.forMethod "prop" {})
          (defineProperty methObj "prop" (Descr.annotMethod methSample)) "prop"
          [JSVal.num 7]).1
        "__doc__" = JSVal.str (Annotator.forMethod "prop" {}).label :=
  ⟨rfl,
    (C3_decorate_method (Annotator.forMethod "prop" {}) methObj "prop" methSample
      [JSVal.num 7] 0 rfl).2.1⟩
